import Mathlib

/-!
Shallow embedding of the loan-application durable workflow:
  src/loan_demo.py   (workflow Lambda: progress logging, scenario logic, steps,
                      the durable handler with its replay-aware log closure and
                      the two wait-for-callback suspensions)
  src/api.py         (API Lambda: the approve/resume endpoint)
  src/fraud_check.py (external fraud-check simulator)

Modelling conventions:
  - Python floats become rationals; loan amounts, incomes, rates are exact here.
  - DynamoDB reads/writes on one application's item become pure updates of an
    AppRecord value; timestamps and the created_at/updated_at fields are
    abstracted away (no claim mentions them).
  - Environment-dependent data the workflow only threads through (the seeded
    RNG credit scores, sha256 digests, Python float formatting, Python round)
    are parameters of the model (structure Params); no claim depends on their
    values.
  - The durable-execution host (context.step, context.parallel,
    context.wait_for_callback, callback tokens) is an external SDK that is not
    part of this repository; its contract is modelled from the spec where a
    definition says so in its doc comment.
-/

namespace LoanDemo

/-- A persisted log entry (loan_demo.py log_progress); the timestamp field is
abstracted away. -/
structure LogEntry where
  step : String
  message : String
  level : String
deriving DecidableEq, Repr

/-- The final_result payloads built in lambda_handler; fields that a given
terminal path does not set are none. -/
structure FinalResult where
  application_id : String
  applicant_name : String
  status : String
  reason : Option String := none
  risk_tier : Option String := none
  average_score : Option ℚ := none
  offer_id : Option String := none
  loan_amount : Option ℚ := none
  annual_rate : Option ℚ := none
  monthly_payment : Option ℚ := none
  term_months : Option Nat := none
  disbursement_ref : Option String := none
deriving DecidableEq, Repr

/-- One application's DynamoDB item (progress store record). -/
structure AppRecord where
  status : String
  current_step : String
  logs : List LogEntry
  result : Option FinalResult
  callback_id : Option String
deriving DecidableEq, Repr

/-- loan_demo.py log_progress: append a log entry, update current_step and
status, and update result only when one is supplied. -/
def log_progress (rec : AppRecord) (step message status level : String)
    (result : Option FinalResult) : AppRecord :=
  { rec with
    logs := rec.logs ++ [{ step := step, message := message, level := level }]
    current_step := step
    status := status
    result := match result with | some r => some r | none => rec.result }

/-- Count of persisted log entries for a step name (the Counter built from the
logs attribute at the start of each invocation). -/
def stepCount (logs : List LogEntry) (step : String) : Nat :=
  logs.countP (fun e => e.step == step)

/-- The two counters of the replay-aware log closure in lambda_handler:
prior_counts is fixed at invocation start, counts is the in-memory
call_counts Counter. -/
structure LogCtx where
  prior : String → Nat
  counts : String → Nat

/-- The log closure defined inside lambda_handler: bump call_counts for the
step; if the new count does not exceed the prior persisted count the call is a
replay echo, so the message gets a REPLAY prefix and the level becomes
replay; then log_progress runs either way. -/
def logCall (ctx : LogCtx) (rec : AppRecord) (step message status level : String)
    (result : Option FinalResult) : LogCtx × AppRecord :=
  let n := ctx.counts step + 1
  let counts' : String → Nat := fun s => if s == step then n else ctx.counts s
  let ml : String × String :=
    if n ≤ ctx.prior step then ("[REPLAY] " ++ message, "replay") else (message, level)
  (⟨ctx.prior, counts'⟩, log_progress rec step ml.1 status ml.2 result)

/-- loan_demo.py get_scenario_decision: the hardcoded scenario table. -/
def get_scenario_decision (ssn_last4 : String) (loan_amount : ℚ) : String :=
  if ssn_last4 == "1111" then "approved"
  else if ssn_last4 == "2222" then "denied"
  else if ssn_last4 == "3333" then
    (if loan_amount ≤ 25000 then "approved" else "denied")
  else "approved"

/-- Environment data the workflow threads through without branching on it:
the seeded per-bureau RNG outputs, the sha256 digest prefix, Python float
formatting and Python round. No claim depends on their values. -/
structure Params where
  score : String → String → ℤ
  derog : String → String → ℤ
  open_accounts : String → String → ℤ
  hash10 : String → String
  fmtMoney : ℚ → String
  fmtQ : ℚ → String
  round1 : ℚ → ℚ
  round2 : ℚ → ℚ

/-- The workflow input event built by the api apply endpoint. All six required
fields are present by construction (the missing-field check of
validate_application cannot fire on a typed event). -/
structure WfEvent where
  application_id : String
  applicant_name : String
  ssn_last4 : String
  annual_income : ℚ
  loan_amount : ℚ
  loan_purpose : String
deriving DecidableEq, Repr

/-- The dict returned by validate_application. -/
structure Validated where
  application_id : String
  applicant_name : String
  ssn_last4 : String
  annual_income : ℚ
  loan_amount : ℚ
  loan_purpose : String
  estimated_dti : ℚ
deriving DecidableEq, Repr

/-- The dict validate_application returns on success. -/
def mkValidated (P : Params) (a : WfEvent) : Validated :=
  { application_id := a.application_id
    applicant_name := a.applicant_name
    ssn_last4 := a.ssn_last4
    annual_income := a.annual_income
    loan_amount := a.loan_amount
    loan_purpose := a.loan_purpose
    estimated_dti := P.round2 ((a.loan_amount * (1/20)) / (a.annual_income / 12)) }

/-- loan_demo.py validate_application: positivity checks, then the DTI
estimate. A raised ValueError is an error value carrying str(error). -/
def validate_application (P : Params) (a : WfEvent) : Except String Validated :=
  if a.loan_amount ≤ 0 then Except.error "Loan amount must be positive"
  else if a.annual_income ≤ 0 then Except.error "Annual income must be positive"
  else Except.ok (mkValidated P a)

/-- The dict returned by pull_credit_report; pulled_at is abstracted away. -/
structure CreditReport where
  bureau : String
  score : ℤ
  report_id : String
  derogatory_marks : ℤ
  open_accounts : ℤ
deriving DecidableEq, Repr

/-- loan_demo.py pull_credit_report: the seeded RNG outputs come from Params. -/
def pull_credit_report (P : Params) (bureau ssn_last4 : String) : CreditReport :=
  let s := P.score bureau ssn_last4
  { bureau := bureau
    score := s
    report_id := (bureau.take 3).toUpper ++ "-" ++ ssn_last4 ++ "-" ++ toString s
    derogatory_marks := P.derog bureau ssn_last4
    open_accounts := P.open_accounts bureau ssn_last4 }

def listMin : List ℤ → ℤ
  | [] => 0
  | h :: t => t.foldl min h

def listMax : List ℤ → ℤ
  | [] => 0
  | h :: t => t.foldl max h

/-- The dict returned by calculate_risk_score. -/
structure RiskResult where
  average_score : ℚ
  min_score : ℤ
  max_score : ℤ
  total_derogatory_marks : ℤ
  risk_tier : String
  base_rate : ℚ
  decision : String
deriving DecidableEq, Repr

/-- loan_demo.py calculate_risk_score: average the bureau scores, pick a tier,
then override the decision with the hardcoded scenario. -/
def calculate_risk_score (P : Params) (credit_reports : List CreditReport)
    (ssn_last4 : String) (loan_amount : ℚ) : RiskResult :=
  let scores := credit_reports.map (fun r => r.score)
  let avg : ℚ := ((scores.foldl (· + ·) 0 : ℤ) : ℚ) / (scores.length : ℚ)
  let total_derog := (credit_reports.map (fun r => r.derogatory_marks)).foldl (· + ·) 0
  let tb : String × ℚ :=
    if (740 : ℚ) ≤ avg ∧ total_derog = (0 : ℤ) then ("prime", (21/4 : ℚ))
    else if 670 ≤ avg then ("near-prime", (15/2 : ℚ))
    else if 580 ≤ avg then ("subprime", (11 : ℚ))
    else ("deep-subprime", (15 : ℚ))
  { average_score := P.round1 avg
    min_score := listMin scores
    max_score := listMax scores
    total_derogatory_marks := total_derog
    risk_tier := tb.1
    base_rate := tb.2
    decision := get_scenario_decision ssn_last4 loan_amount }

/-- The dict returned by generate_loan_offer; generated_at abstracted away. -/
structure Offer where
  offer_id : String
  application_id : String
  loan_amount : ℚ
  annual_rate : ℚ
  term_months : Nat
  monthly_payment : ℚ
  total_interest : ℚ
deriving DecidableEq, Repr

/-- loan_demo.py generate_loan_offer: amortized payment over 60 months; the
offer id is OFFER- plus the uppercased 10-char sha256 prefix. -/
def generate_loan_offer (P : Params) (app : Validated) (risk : RiskResult) : Offer :=
  let rate := risk.base_rate
  let loan_amount := app.loan_amount
  let term_months : Nat := 60
  let monthly_rate := rate / 100 / 12
  let payment : ℚ :=
    if 0 < monthly_rate then
      loan_amount * (monthly_rate * (1 + monthly_rate) ^ term_months) /
        ((1 + monthly_rate) ^ term_months - 1)
    else loan_amount / (term_months : ℚ)
  let offer_id := P.hash10 ("offer-" ++ app.application_id ++ "-" ++ P.fmtQ rate)
  { offer_id := "OFFER-" ++ offer_id.toUpper
    application_id := app.application_id
    loan_amount := loan_amount
    annual_rate := rate
    term_months := term_months
    monthly_payment := P.round2 payment
    total_interest := P.round2 (payment * (term_months : ℚ) - loan_amount) }

/-- The dict returned by disburse_funds; funded_at abstracted away. -/
structure Disbursement where
  offer_id : String
  disbursement_ref : String
  amount_disbursed : ℚ
deriving DecidableEq, Repr

/-- loan_demo.py disburse_funds. -/
def disburse_funds (offer : Offer) : Disbursement :=
  { offer_id := offer.offer_id
    disbursement_ref := "DSB-" ++ offer.offer_id.takeRight 6
    amount_disbursed := offer.loan_amount }

/-- A callback result payload (a JSON object in the source): the union of the
fields the api approve endpoint and the fraud-check simulator send and the
workflow reads. Absent keys are none. -/
structure Payload where
  approved : Option Bool := none
  reason : Option String := none
  fraud_check : Option String := none
  risk_indicators : Option ℤ := none
  checked_by : Option String := none
deriving DecidableEq, Repr

/-- Externally visible side effects of one code path, beyond the mutation of
the application's own record: the DynamoDB SET callback_id write performed by
submit_manager_approval (prev records the stored token at write time), the
asynchronous Lambda invocation performed by submit_fraud_check, and the
SendDurableExecutionCallbackSuccess calls that actually reach the host. -/
inductive Effect where
  | setCallbackId (cid : String) (prev : Option String)
  | invokeFraudLambda (callback_id application_id applicant_name : String)
  | sendApprovalCallback (cid : String) (payload : Payload)
  | sendFraudCallback (cid : String) (payload : Payload)
deriving DecidableEq, Repr

/-- Modelled from the spec: how one invocation sees one wait_for_callback
suspension point of the external orchestration host (the durable-execution SDK
is not part of this repository). On first arrival the host mints a fresh
callback id and runs the submit function (fresh); on replay of an unresolved
suspension it suspends again without re-running the submit function (pending);
when the external result arrived it returns it (done); when the configured
timeout elapsed first, wait_for_callback raises (timedOut). -/
inductive CallbackState where
  | fresh (cid : String)
  | pending
  | done (payload : Payload)
  | timedOut (msg : String)
deriving DecidableEq, Repr

/-- How one invocation of lambda_handler ends: a returned final_result, a
suspension at a named wait_for_callback, or a re-raised exception. -/
inductive Outcome where
  | completed (r : FinalResult)
  | suspended (name : String)
  | failed (msg : String)
deriving DecidableEq, Repr

/-- Status field of a completed outcome's final result, if any. -/
def Outcome.statusOf : Outcome → Option String
  | Outcome.completed r => some r.status
  | _ => none

/-- Reason field of a completed outcome's final result, if any. -/
def Outcome.reasonOf : Outcome → Option String
  | Outcome.completed r => r.reason
  | _ => none

/-- Offer id of a completed outcome's final result, if any. -/
def Outcome.offerOf : Outcome → Option String
  | Outcome.completed r => r.offer_id
  | _ => none

/-- Result of one invocation of lambda_handler: the record as left in the
store, the outcome, the external side effects in order, and the callback id
minted at a suspension first reached in this invocation (if any). -/
structure InvOut where
  store : AppRecord
  outcome : Outcome
  effects : List Effect
  issuedMgr : Option String
  issuedFrd : Option String
deriving DecidableEq, Repr

/-- Running state threaded through one invocation of lambda_handler. -/
structure St where
  ctx : LogCtx
  store : AppRecord
  effects : List Effect

/-- One call of the log closure, threading the running state. -/
def stLog (s : St) (step message status level : String)
    (result : Option FinalResult) : St :=
  let cr := logCall s.ctx s.store step message status level result
  { s with ctx := cr.1, store := cr.2 }

/-- The submit_manager_approval closure in lambda_handler: write the freshly
minted callback_id into the application's DynamoDB item. -/
def submit_manager_approval (callback_id : String) (s : St) : St :=
  { s with
    store := { s.store with callback_id := some callback_id }
    effects := s.effects ++ [Effect.setCallbackId callback_id s.store.callback_id] }

/-- The submit_fraud_check closure in lambda_handler: asynchronously invoke
the fraud-check Lambda, passing the callback id. It does not touch the
progress record. -/
def submit_fraud_check (validated : Validated) (callback_id : String) (s : St) : St :=
  { s with
    effects := s.effects ++
      [Effect.invokeFraudLambda callback_id validated.application_id validated.applicant_name] }

/-- Modelled from the spec: the orchestration host's parallel primitive
(concurrent execution with input-order aggregation), which is not part of this
repository. The sub-step results arrive as (index, value) completion events in
an arbitrary completion order; the aggregated list is assembled by input
index. -/
def hostParallel {α : Type} (tasks : List α) (completionOrder : List Nat) : List α :=
  let events := completionOrder.filterMap
    (fun i => (tasks.get? i).map (fun t => (i, t)))
  (List.range tasks.length).filterMap
    (fun i => (events.find? (fun e => e.1 == i)).map (fun e => e.2))

def bureaus : List String := ["equifax", "transunion", "experian"]

/-- The credit-bureau fan-out submitted by lambda_handler, in submission
order. -/
def creditTasks (P : Params) (ssn_last4 : String) : List CreditReport :=
  bureaus.map (fun b => pull_credit_report P b ssn_last4)

/-- Builds an InvOut from the running state. -/
def mkOut (s : St) (o : Outcome) (im ifr : Option String) : InvOut :=
  ⟨s.store, o, s.effects, im, ifr⟩

/-- The top-level except-branch of lambda_handler: log the error at error
level with status failed, then re-raise. -/
def errExit (s : St) (msg : String) : InvOut :=
  mkOut (stLog s "error" ("Workflow error: " ++ msg) "failed" "error" none)
    (Outcome.failed msg) none none

/-- The tail of lambda_handler from the fraud-check suspension onwards
(reached either after manager approval or directly when the loan is below the
threshold). -/
def fraudPhase (P : Params) (validated : Validated) (risk : RiskResult)
    (frd : CallbackState) (s : St) : InvOut :=
  let s10 := stLog s "fraud_check" "Requesting external fraud check service..."
    "processing" "info" none
  match frd with
  | CallbackState.fresh cid =>
      mkOut (submit_fraud_check validated cid s10)
        (Outcome.suspended "fraud-check") none (some cid)
  | CallbackState.pending =>
      mkOut s10 (Outcome.suspended "fraud-check") none none
  | CallbackState.timedOut msg => errExit s10 msg
  | CallbackState.done fraud_result =>
      let s11 := stLog s10 "fraud_check"
        ("Fraud check passed — " ++ fraud_result.checked_by.getD "external service")
        "processing" "info" none
      let s12 := stLog s11 "generating_offer" "Generating loan offer..."
        "processing" "info" none
      let offer := generate_loan_offer P validated risk
      let s13 := stLog s12 "generating_offer"
        ("Offer " ++ offer.offer_id ++ ": $" ++ P.fmtQ offer.monthly_payment ++
          "/mo at " ++ P.fmtQ offer.annual_rate ++ "%")
        "processing" "info" none
      let s14 := stLog s13 "disbursing" "Disbursing funds..." "processing" "info" none
      let disb := disburse_funds offer
      let final : FinalResult :=
        { application_id := validated.application_id
          applicant_name := validated.applicant_name
          status := "approved"
          offer_id := some offer.offer_id
          loan_amount := some offer.loan_amount
          annual_rate := some offer.annual_rate
          monthly_payment := some offer.monthly_payment
          term_months := some offer.term_months
          disbursement_ref := some disb.disbursement_ref }
      let s15 := stLog s14 "complete" "Loan approved and funds disbursed!"
        "approved" "info" (some final)
      mkOut s15 (Outcome.completed final) none none

/-- One invocation of the durable lambda_handler of loan_demo.py, against the
record currently in the store. The per-suspension CallbackState inputs are the
host's view of the two wait_for_callback points; completionOrder is the order
in which the parallel credit pulls complete. -/
def lambda_handler (P : Params) (event : WfEvent) (existing : AppRecord)
    (mgr : CallbackState) (frd : CallbackState)
    (completionOrder : List Nat) : InvOut :=
  let ctx0 : LogCtx := ⟨stepCount existing.logs, fun _ => 0⟩
  let s0 : St := ⟨ctx0, existing, []⟩
  let s1 := stLog s0 "validating" "Validating loan application..." "processing" "info" none
  match validate_application P event with
  | Except.error msg => errExit s1 msg
  | Except.ok validated =>
    let s2 := stLog s1 "validating" "Application validated successfully"
      "processing" "info" none
    let s3 := stLog s2 "credit_check" "Pulling credit reports from 3 bureaus..."
      "processing" "info" none
    let credit_reports := hostParallel (creditTasks P validated.ssn_last4) completionOrder
    let scores_str := String.intercalate ", "
      (credit_reports.map (fun r => r.bureau ++ "=" ++ toString r.score))
    let s4 := stLog s3 "credit_check" ("Credit scores received: " ++ scores_str)
      "processing" "info" none
    let s5 := stLog s4 "risk_assessment" "Calculating risk score..."
      "processing" "info" none
    let risk := calculate_risk_score P credit_reports validated.ssn_last4
      validated.loan_amount
    let s6 := stLog s5 "risk_assessment"
      ("Risk tier: " ++ risk.risk_tier ++ ", avg score: " ++ P.fmtQ risk.average_score ++
        ", decision: " ++ risk.decision)
      "processing" "info" none
    if risk.decision = "denied" then
      let final : FinalResult :=
        { application_id := validated.application_id
          applicant_name := validated.applicant_name
          status := "denied"
          reason := some ("Application denied — risk tier: " ++ risk.risk_tier ++
            ", avg credit score: " ++ P.fmtQ risk.average_score)
          risk_tier := some risk.risk_tier
          average_score := some risk.average_score }
      let s7 := stLog s6 "risk_assessment" "Application denied" "denied" "warn" (some final)
      mkOut s7 (Outcome.completed final) none none
    else if (100000 : ℚ) ≤ validated.loan_amount then
      let s7 := stLog s6 "manager_approval"
        ("Manager approval required for loans >= $100,000 (requested: $" ++
          P.fmtMoney validated.loan_amount ++ ")")
        "pending_approval" "info" none
      match mgr with
      | CallbackState.fresh cid =>
          mkOut (submit_manager_approval cid s7)
            (Outcome.suspended "manager-approval") (some cid) none
      | CallbackState.pending =>
          mkOut s7 (Outcome.suspended "manager-approval") none none
      | CallbackState.timedOut msg => errExit s7 msg
      | CallbackState.done approval_result =>
          if !(approval_result.approved.getD false) then
            let final : FinalResult :=
              { application_id := validated.application_id
                applicant_name := validated.applicant_name
                status := "denied"
                reason := some (approval_result.reason.getD "Manager denied the application") }
            let s8 := stLog s7 "manager_approval" "Application denied by manager"
              "denied" "warn" (some final)
            mkOut s8 (Outcome.completed final) none none
          else
            let s8 := stLog s7 "manager_approval" "Manager approved the application"
              "processing" "info" none
            fraudPhase P validated risk frd s8
    else
      fraudPhase P validated risk frd s6

/-- The initial DynamoDB item put by the api apply endpoint (fields no claim
mentions are abstracted away; callback_id is absent, hence none). -/
def initialRecord : AppRecord :=
  { status := "submitted"
    current_step := "submitted"
    logs := [{ step := "submitted", message := "Application received", level := "info" }]
    result := none
    callback_id := none }

/-- Request body of the api approve endpoint; absent JSON keys are none. -/
structure ApproveBody where
  approved : Option Bool := none
  reason : Option String := none
deriving DecidableEq, Repr

/-- Responses of the api approve endpoint. -/
inductive ApproveResp where
  | approval_sent (approved : Bool)
  | notFound
  | badRequest (msg : String)
  | sendFailed
deriving DecidableEq, Repr

/-- The callback_result dict the approve endpoint sends: approved defaults to
false; a reason is attached only on denial, defaulting to the fixed message. -/
def approvePayload (body : ApproveBody) : Payload :=
  let a := body.approved.getD false
  { approved := some a
    reason := if a then none else some (body.reason.getD "Manager denied the application") }

/-- api.py approve: read the item; reject when absent or when it stores no
callback_id; otherwise send the callback to the host and, only when the send
succeeded, REMOVE callback_id from the item. hostTokens is the host's set of
currently outstanding callback ids (a failed send raises, so the REMOVE is
never reached on failure and the record is untouched). -/
def approve (hostTokens : List String) (item : Option AppRecord) (body : ApproveBody) :
    Option AppRecord × List Effect × ApproveResp :=
  match item with
  | none => (none, [], ApproveResp.notFound)
  | some rec =>
    match rec.callback_id with
    | none => (some rec, [], ApproveResp.badRequest "No pending approval for this application")
    | some cid =>
      if cid ∈ hostTokens then
        (some { rec with callback_id := none },
          [Effect.sendApprovalCallback cid (approvePayload body)],
          ApproveResp.approval_sent ((approvePayload body).approved.getD false))
      else
        (some rec, [], ApproveResp.sendFailed)

/-- The result dict fraud_check.py sends through
SendDurableExecutionCallbackSuccess. -/
def fraud_check_result : Payload :=
  { fraud_check := some "passed"
    risk_indicators := some 0
    checked_by := some "FraudCheckService-v2" }

/-- Modelled from the spec: the host-side state of one wait_for_callback
rendezvous (the durable-execution SDK holding it is not part of this
repository): not yet issued, waiting on an outstanding token, completed with a
payload, or expired by the configured timeout (which invalidates the token
server-side). -/
inductive HostCb where
  | notIssued
  | waiting (cid : String)
  | completed (payload : Payload)
  | expired (cid msg : String)
deriving DecidableEq, Repr

/-- Modelled from the spec: what the host hands the replayed workflow code at
a suspension point, given the rendezvous state; mint is the fresh callback id
used on first arrival. -/
def toInput (h : HostCb) (mint : String) : CallbackState :=
  match h with
  | HostCb.notIssued => CallbackState.fresh mint
  | HostCb.waiting _ => CallbackState.pending
  | HostCb.completed p => CallbackState.done p
  | HostCb.expired _ m => CallbackState.timedOut m

/-- Global state of one application: its store record plus the host-side state
of the two rendezvous points (manager approval, fraud check). -/
structure Sys where
  store : AppRecord
  mgr : HostCb
  frd : HostCb
deriving DecidableEq, Repr

/-- The host's currently outstanding (resumable) callback ids. -/
def sysTokens (s : Sys) : List String :=
  (match s.mgr with | HostCb.waiting c => [c] | _ => []) ++
  (match s.frd with | HostCb.waiting c => [c] | _ => [])

/-- One (re-)invocation of the workflow by the host: run lambda_handler with
the rendezvous states as seen by the code, then record any token minted at a
first-reached suspension as waiting. -/
def sysInvoke (P : Params) (ev : WfEvent) (s : Sys) (c1 c2 : String)
    (order : List Nat) : Sys × InvOut :=
  let out := lambda_handler P ev s.store (toInput s.mgr c1) (toInput s.frd c2) order
  (⟨out.store,
    (match out.issuedMgr with | some c => HostCb.waiting c | none => s.mgr),
    (match out.issuedFrd with | some c => HostCb.waiting c | none => s.frd)⟩,
   out)

/-- A resume call through the api approve endpoint: run approve against the
record with the host's outstanding tokens; on a successful send the manager
rendezvous (whose token the record stores) completes with the sent payload. -/
def sysApprove (s : Sys) (body : ApproveBody) : Sys × List Effect × ApproveResp :=
  let r := approve (sysTokens s) (some s.store) body
  let s' : Sys := { s with store := r.1.getD s.store }
  match r.2.2 with
  | ApproveResp.approval_sent _ =>
    (match s.store.callback_id with
     | some cid =>
        if s'.mgr = HostCb.waiting cid then
          ({ s' with mgr := HostCb.completed (approvePayload body) }, r.2.1, r.2.2)
        else ({ s' with frd := HostCb.completed (approvePayload body) }, r.2.1, r.2.2)
     | none => (s', r.2.1, r.2.2))
  | _ => (s', r.2.1, r.2.2)

/-- fraud_check.py lambda_handler: after simulated processing it sends the
fixed passed result for the callback id it was invoked with; the host accepts
the callback only while that fraud rendezvous token is outstanding (modelled
from the spec: a consumed or expired token is rejected with no effect). -/
def sysFraudCb (s : Sys) (cid : String) : Sys × List Effect :=
  if s.frd = HostCb.waiting cid then
    ({ s with frd := HostCb.completed fraud_check_result },
      [Effect.sendFraudCallback cid fraud_check_result])
  else (s, [])

/-- Modelled from the spec: expiry of the manager rendezvous timeout
invalidates its token server-side. -/
def sysTimeoutMgr (s : Sys) (msg : String) : Sys :=
  match s.mgr with
  | HostCb.waiting c => { s with mgr := HostCb.expired c msg }
  | _ => s

/-- Modelled from the spec: expiry of the fraud rendezvous timeout invalidates
its token server-side. -/
def sysTimeoutFrd (s : Sys) (msg : String) : Sys :=
  match s.frd with
  | HostCb.waiting c => { s with frd := HostCb.expired c msg }
  | _ => s

/-- All states one application can reach: the initial submitted record, then
any interleaving of host re-invocations, approve calls, the fraud-check
Lambda's callback, and rendezvous timeouts. -/
inductive Reach (P : Params) (ev : WfEvent) : Sys → Prop where
  | init : Reach P ev ⟨initialRecord, HostCb.notIssued, HostCb.notIssued⟩
  | invoke (s : Sys) (c1 c2 : String) (order : List Nat) :
      Reach P ev s → Reach P ev (sysInvoke P ev s c1 c2 order).1
  | approveCall (s : Sys) (body : ApproveBody) :
      Reach P ev s → Reach P ev (sysApprove s body).1
  | fraudCb (s : Sys) (cid : String) :
      Reach P ev s → Reach P ev (sysFraudCb s cid).1
  | timeoutMgr (s : Sys) (msg : String) :
      Reach P ev s → Reach P ev (sysTimeoutMgr s msg)
  | timeoutFrd (s : Sys) (msg : String) :
      Reach P ev s → Reach P ev (sysTimeoutFrd s msg)

/-- Whether an effect is the DynamoDB write that stores a callback token. -/
def isSetCb : Effect → Bool
  | Effect.setCallbackId _ _ => true
  | _ => false

/-- Concrete parameter instantiation for witnesses and counterexamples. -/
def P0 : Params :=
  { score := fun _ _ => 700
    derog := fun _ _ => 0
    open_accounts := fun _ _ => 5
    hash10 := fun _ => "abc123def0"
    fmtMoney := fun _ => ""
    fmtQ := fun _ => ""
    round1 := fun q => q
    round2 := fun q => q }

/-- Concrete below-threshold approving application (scenario A). -/
def evAlice : WfEvent :=
  { application_id := "LOAN-1"
    applicant_name := "Alice"
    ssn_last4 := "1111"
    annual_income := 85000
    loan_amount := 50000
    loan_purpose := "personal_loan" }

/-- Concrete above-threshold approving application (scenario D). -/
def evAlice150 : WfEvent := { evAlice with loan_amount := 150000 }

/-- The first log entry lambda_handler persists. -/
def validatingEntry : LogEntry :=
  { step := "validating", message := "Validating loan application...", level := "info" }

/-- A record as persisted after one invocation logged the validating step
once: concrete input for the C1 counterexample. -/
def recC1 : AppRecord :=
  { status := "processing", current_step := "validating",
    logs := [validatingEntry], result := none, callback_id := none }

/-- A record holding an outstanding callback token (concrete witness input). -/
def recTok : AppRecord :=
  { status := "pending_approval", current_step := "manager_approval",
    logs := [], result := none, callback_id := some "tok-1" }

/-- A record holding no callback token (concrete witness input). -/
def recNoTok : AppRecord :=
  { status := "submitted", current_step := "submitted",
    logs := [], result := none, callback_id := none }

/-!  Helper lemmas about the building blocks of the interpreter. -/

@[simp]
theorem stLog_effects (s : St) (a b c d : String) (r : Option FinalResult) :
    (stLog s a b c d r).effects = s.effects := rfl

@[simp]
theorem stLog_callback (s : St) (a b c d : String) (r : Option FinalResult) :
    (stLog s a b c d r).store.callback_id = s.store.callback_id := rfl

@[simp]
theorem stLog_status (s : St) (a b c d : String) (r : Option FinalResult) :
    (stLog s a b c d r).store.status = c := rfl

@[simp]
theorem stLog_current_step (s : St) (a b c d : String) (r : Option FinalResult) :
    (stLog s a b c d r).store.current_step = a := rfl

@[simp]
theorem stLog_result_some (s : St) (a b c d : String) (x : FinalResult) :
    (stLog s a b c d (some x)).store.result = some x := rfl

@[simp]
theorem mkOut_store (s : St) (o : Outcome) (im ifr : Option String) :
    (mkOut s o im ifr).store = s.store := rfl

@[simp]
theorem mkOut_outcome (s : St) (o : Outcome) (im ifr : Option String) :
    (mkOut s o im ifr).outcome = o := rfl

@[simp]
theorem mkOut_effects (s : St) (o : Outcome) (im ifr : Option String) :
    (mkOut s o im ifr).effects = s.effects := rfl

@[simp]
theorem mkOut_issuedMgr (s : St) (o : Outcome) (im ifr : Option String) :
    (mkOut s o im ifr).issuedMgr = im := rfl

@[simp]
theorem mkOut_issuedFrd (s : St) (o : Outcome) (im ifr : Option String) :
    (mkOut s o im ifr).issuedFrd = ifr := rfl

@[simp]
theorem errExit_effects (s : St) (msg : String) :
    (errExit s msg).effects = s.effects := rfl

@[simp]
theorem errExit_outcome (s : St) (msg : String) :
    (errExit s msg).outcome = Outcome.failed msg := rfl

@[simp]
theorem errExit_callback (s : St) (msg : String) :
    (errExit s msg).store.callback_id = s.store.callback_id := rfl

@[simp]
theorem errExit_issuedMgr (s : St) (msg : String) :
    (errExit s msg).issuedMgr = none := rfl

@[simp]
theorem errExit_issuedFrd (s : St) (msg : String) :
    (errExit s msg).issuedFrd = none := rfl

@[simp]
theorem submit_manager_approval_effects (c : String) (s : St) :
    (submit_manager_approval c s).effects =
      s.effects ++ [Effect.setCallbackId c s.store.callback_id] := rfl

@[simp]
theorem submit_manager_approval_callback (c : String) (s : St) :
    (submit_manager_approval c s).store.callback_id = some c := rfl

@[simp]
theorem submit_manager_approval_status (c : String) (s : St) :
    (submit_manager_approval c s).store.status = s.store.status := rfl

@[simp]
theorem submit_fraud_check_store (v : Validated) (c : String) (s : St) :
    (submit_fraud_check v c s).store = s.store := rfl

@[simp]
theorem submit_fraud_check_effects (v : Validated) (c : String) (s : St) :
    (submit_fraud_check v c s).effects =
      s.effects ++ [Effect.invokeFraudLambda c v.application_id v.applicant_name] := rfl

@[simp]
theorem mkValidated_ssn (P : Params) (a : WfEvent) :
    (mkValidated P a).ssn_last4 = a.ssn_last4 := rfl

@[simp]
theorem mkValidated_loan (P : Params) (a : WfEvent) :
    (mkValidated P a).loan_amount = a.loan_amount := rfl

@[simp]
theorem mkValidated_appid (P : Params) (a : WfEvent) :
    (mkValidated P a).application_id = a.application_id := rfl

@[simp]
theorem mkValidated_name (P : Params) (a : WfEvent) :
    (mkValidated P a).applicant_name = a.applicant_name := rfl

@[simp]
theorem calculate_risk_score_decision (P : Params) (rs : List CreditReport)
    (ssn : String) (loan : ℚ) :
    (calculate_risk_score P rs ssn loan).decision = get_scenario_decision ssn loan := rfl

theorem validate_ok (P : Params) (a : WfEvent)
    (h1 : 0 < a.loan_amount) (h2 : 0 < a.annual_income) :
    validate_application P a = Except.ok (mkValidated P a) := by
  unfold validate_application
  rw [if_neg (not_le.mpr h1), if_neg (not_le.mpr h2)]

/-!  C1: replay suppression of the persisted log. -/

/-- C1 counterexample: re-invoking after one persisted entry for the
validating step and replaying the same logical log call, the log closure
marks the event as a replay but still appends a LogEntry, so the persisted
log holds two entries for that logical event, not exactly one. -/
theorem c1_counterexample :
    stepCount (logCall ⟨stepCount recC1.logs, fun _ => 0⟩ recC1
        "validating" "Validating loan application..." "processing" "info" none).2.logs
      "validating" = 2 ∧
    (logCall ⟨stepCount recC1.logs, fun _ => 0⟩ recC1
        "validating" "Validating loan application..." "processing" "info" none).2.logs.getLast?
      = some { step := "validating", message := "[REPLAY] Validating loan application...",
               level := "replay" } := by
  exact ⟨by decide, by decide⟩

/-- C1 (amended): when the current invocation's call count for a step does not
exceed the count of entries already persisted for that step, the log closure
marks the event as a replay (level replay, message prefixed with REPLAY) but
still appends it through log_progress; every call appends exactly one entry to
the persisted log, replay or not. -/
theorem c1_replay_marked_but_appended (ctx : LogCtx) (rec0 : AppRecord)
    (step message status level : String) (result : Option FinalResult) :
    (logCall ctx rec0 step message status level result).2.logs =
      rec0.logs ++
        [if ctx.counts step + 1 ≤ ctx.prior step then
            { step := step, message := "[REPLAY] " ++ message, level := "replay" }
          else { step := step, message := message, level := level }] := by
  unfold logCall log_progress
  dsimp only
  split <;> rfl

/-!  C2: the resume call consumes the rendezvous at most once. -/

/-- C2: a resume call for an application whose record stores a callback token
sends the result payload exactly once and clears the token; the retried
resume call after consumption, and any resume call when no token is stored,
is rejected with a BadRequest error and performs no mutation of the record. -/
theorem c2_resume_consumed_at_most_once
    (hostTokens hostTokens2 hostTokens3 : List String)
    (rec0 r2 : AppRecord) (cid : String)
    (body retryBody body3 : ApproveBody)
    (hcb : rec0.callback_id = some cid) (hhost : cid ∈ hostTokens)
    (h2 : r2.callback_id = none) :
    approve hostTokens (some rec0) body =
      (some { rec0 with callback_id := none },
        [Effect.sendApprovalCallback cid (approvePayload body)],
        ApproveResp.approval_sent ((approvePayload body).approved.getD false)) ∧
    approve hostTokens2 (some { rec0 with callback_id := none }) retryBody =
      (some { rec0 with callback_id := none }, [],
        ApproveResp.badRequest "No pending approval for this application") ∧
    approve hostTokens3 (some r2) body3 =
      (some r2, [], ApproveResp.badRequest "No pending approval for this application") := by
  refine ⟨?_, ?_, ?_⟩ <;> simp [approve, hcb, hhost, h2]

/-- C2 witness at concrete inputs. -/
theorem c2_witness :
    recTok.callback_id = some "tok-1" ∧ "tok-1" ∈ ["tok-1"] ∧ recNoTok.callback_id = none ∧
    (approve ["tok-1"] (some recTok) { approved := some true } =
      (some { recTok with callback_id := none },
        [Effect.sendApprovalCallback "tok-1" (approvePayload { approved := some true })],
        ApproveResp.approval_sent ((approvePayload { approved := some true }).approved.getD false)) ∧
    approve [] (some { recTok with callback_id := none }) { } =
      (some { recTok with callback_id := none }, [],
        ApproveResp.badRequest "No pending approval for this application") ∧
    approve [] (some recNoTok) { } =
      (some recNoTok, [],
        ApproveResp.badRequest "No pending approval for this application")) :=
  ⟨rfl, by decide, rfl,
    c2_resume_consumed_at_most_once ["tok-1"] [] [] recTok recNoTok
      "tok-1" { approved := some true } { } { } rfl (by decide) rfl⟩

/-!  C9: order-stable aggregation of the parallel fan-out. -/

theorem filterMap_congr_mem {α β : Type} (l : List α) (f g : α → Option β)
    (h : ∀ a ∈ l, f a = g a) : l.filterMap f = l.filterMap g := by
  induction l with
  | nil => rfl
  | cons a l ih =>
    rw [List.filterMap_cons, List.filterMap_cons, h a (List.mem_cons_self a l),
      ih (fun b hb => h b (List.mem_cons_of_mem a hb))]

theorem find_completion_event {α : Type} (tasks : List α) (l : List Nat) (i : Nat) (t : α)
    (ht : tasks.get? i = some t) (hmem : i ∈ l) :
    ((l.filterMap (fun j => (tasks.get? j).map (fun u => (j, u)))).find?
        (fun e => e.1 == i)) = some (i, t) := by
  induction l with
  | nil => cases hmem
  | cons j l ih =>
    rw [List.filterMap_cons]
    by_cases hj : j = i
    · subst hj
      rw [ht]
      simp [List.find?]
    · cases hg : tasks.get? j with
      | none =>
        exact ih (by
          rcases List.mem_cons.mp hmem with h | h
          · exact absurd h.symm hj
          · exact h)
      | some u =>
        rw [Option.map_some']
        rw [List.find?_cons_of_neg _ (by simp [hj])]
        exact ih (by
          rcases List.mem_cons.mp hmem with h | h
          · exact absurd h.symm hj
          · exact h)

theorem range_filterMap_get {α : Type} (tasks : List α) :
    (List.range tasks.length).filterMap (fun i => tasks.get? i) = tasks := by
  induction tasks with
  | nil => rfl
  | cons t ts ih =>
    rw [List.length_cons, List.range_succ_eq_map, List.filterMap_cons]
    simp only [List.get?_cons_zero, List.filterMap_map]
    rw [show ((fun i => (t :: ts).get? i) ∘ Nat.succ) = (fun i => ts.get? i) from rfl, ih]

/-- The host parallel primitive returns the task results in input order for
every completion order that runs each task exactly once. -/
theorem hostParallel_perm {α : Type} (tasks : List α) (order : List Nat)
    (h : order.Perm (List.range tasks.length)) :
    hostParallel tasks order = tasks := by
  unfold hostParallel
  have key : ∀ i ∈ List.range tasks.length,
      ((order.filterMap (fun j => (tasks.get? j).map (fun u => (j, u)))).find?
          (fun e => e.1 == i)).map (fun e => e.2) = tasks.get? i := by
    intro i hi
    have hmem : i ∈ order := h.mem_iff.mpr hi
    have hlt : i < tasks.length := List.mem_range.mp hi
    have ht : tasks.get? i = some (tasks.get ⟨i, hlt⟩) := List.get?_eq_get hlt
    rw [find_completion_event tasks order i _ ht hmem, ht, Option.map_some']
  rw [filterMap_congr_mem _ _ _ key, range_filterMap_get]

/-- C9: the parallel credit-bureau fan-out over the submitted bureau list
aggregates results in the original input order for every completion order,
so two replays with different completion orders hand the risk-assessment
step the same list. -/
theorem c9_parallel_input_order (P : Params) (ssn : String) (order order2 : List Nat)
    (h : order.Perm (List.range 3)) (h2 : order2.Perm (List.range 3)) :
    hostParallel (creditTasks P ssn) order =
      [pull_credit_report P "equifax" ssn, pull_credit_report P "transunion" ssn,
        pull_credit_report P "experian" ssn] ∧
    hostParallel (creditTasks P ssn) order = hostParallel (creditTasks P ssn) order2 := by
  have e1 : hostParallel (creditTasks P ssn) order = creditTasks P ssn :=
    hostParallel_perm _ _ h
  have e2 : hostParallel (creditTasks P ssn) order2 = creditTasks P ssn :=
    hostParallel_perm _ _ h2
  exact ⟨e1.trans rfl, e1.trans e2.symm⟩

/-- C9 witness: experian completes first, the aggregated list is still in
submission order. -/
theorem c9_witness :
    ([2, 0, 1] : List Nat).Perm (List.range 3) ∧
    ([0, 1, 2] : List Nat).Perm (List.range 3) ∧
    (hostParallel (creditTasks P0 "1111") [2, 0, 1] =
      [pull_credit_report P0 "equifax" "1111", pull_credit_report P0 "transunion" "1111",
        pull_credit_report P0 "experian" "1111"] ∧
    hostParallel (creditTasks P0 "1111") [2, 0, 1] =
      hostParallel (creditTasks P0 "1111") [0, 1, 2]) :=
  ⟨by decide, by decide,
    c9_parallel_input_order P0 "1111" [2, 0, 1] [0, 1, 2] (by decide) (by decide)⟩

/-!  C3: what each suspension's caller-supplied side effect does. -/

/-- C3 counterexample: on the concrete below-threshold approving application,
the first invocation reaches the fraud-check suspension with a fresh callback
id, and the suspension's side effect only invokes the fraud-check Lambda; no
setCallbackToken write happens and the record's callback_id stays none, so the
fraud-check rendezvous does not persist its token to the Progress Store. -/
theorem c3_counterexample :
    (lambda_handler P0 evAlice initialRecord (CallbackState.fresh "cb-mgr")
        (CallbackState.fresh "cb-frd") [0, 1, 2]).outcome =
      Outcome.suspended "fraud-check" ∧
    (lambda_handler P0 evAlice initialRecord (CallbackState.fresh "cb-mgr")
        (CallbackState.fresh "cb-frd") [0, 1, 2]).effects =
      [Effect.invokeFraudLambda "cb-frd" "LOAN-1" "Alice"] ∧
    (lambda_handler P0 evAlice initialRecord (CallbackState.fresh "cb-mgr")
        (CallbackState.fresh "cb-frd") [0, 1, 2]).store.callback_id = none := by
  exact ⟨by decide, by decide, by decide⟩

/-- C3 (amended): each suspension performs its caller-supplied side effect
exactly once, on first arrival, and never on replay of the same suspension
point; but only the ManagerApproval suspension persists the fresh callback
token to the Progress Store record, while the FraudCheck suspension only
invokes the external fraud-check Lambda with the token and does not persist
it. -/
theorem c3_side_effect_once_per_suspension (P : Params) (ev : WfEvent)
    (rec0 : AppRecord) (order : List Nat) (c1 c2 : String)
    (h1 : 0 < ev.loan_amount) (h2 : 0 < ev.annual_income)
    (hdec : get_scenario_decision ev.ssn_last4 ev.loan_amount = "approved") :
    (100000 ≤ ev.loan_amount →
      ∀ frd,
        (lambda_handler P ev rec0 (CallbackState.fresh c1) frd order).effects =
          [Effect.setCallbackId c1 rec0.callback_id] ∧
        (lambda_handler P ev rec0 (CallbackState.fresh c1) frd order).store.callback_id =
          some c1 ∧
        (lambda_handler P ev rec0 (CallbackState.fresh c1) frd order).outcome =
          Outcome.suspended "manager-approval") ∧
    (100000 ≤ ev.loan_amount →
      ∀ frd, (lambda_handler P ev rec0 CallbackState.pending frd order).effects = []) ∧
    (ev.loan_amount < 100000 →
      ∀ mgr,
        (lambda_handler P ev rec0 mgr (CallbackState.fresh c2) order).effects =
          [Effect.invokeFraudLambda c2 ev.application_id ev.applicant_name] ∧
        (lambda_handler P ev rec0 mgr (CallbackState.fresh c2) order).store.callback_id =
          rec0.callback_id ∧
        (lambda_handler P ev rec0 mgr (CallbackState.fresh c2) order).outcome =
          Outcome.suspended "fraud-check") ∧
    (ev.loan_amount < 100000 →
      ∀ mgr, (lambda_handler P ev rec0 mgr CallbackState.pending order).effects = []) := by
  refine ⟨fun hl frd => ?_, fun hl frd => ?_, fun hl mgr => ?_, fun hl mgr => ?_⟩
  · simp [lambda_handler, validate_ok P ev h1 h2, hdec, hl, submit_manager_approval]
  · simp [lambda_handler, validate_ok P ev h1 h2, hdec, hl]
  · simp [lambda_handler, validate_ok P ev h1 h2, hdec, not_le.mpr hl,
      submit_fraud_check, fraudPhase]
  · simp [lambda_handler, validate_ok P ev h1 h2, hdec, not_le.mpr hl, fraudPhase]

/-- C3 witness for the amended theorem at concrete inputs. -/
theorem c3_witness :
    (0 : ℚ) < evAlice150.loan_amount ∧ (0 : ℚ) < evAlice150.annual_income ∧
    get_scenario_decision evAlice150.ssn_last4 evAlice150.loan_amount = "approved" ∧
    ((100000 ≤ evAlice150.loan_amount →
      ∀ frd,
        (lambda_handler P0 evAlice150 initialRecord (CallbackState.fresh "m1") frd [0, 1, 2]).effects =
          [Effect.setCallbackId "m1" initialRecord.callback_id] ∧
        (lambda_handler P0 evAlice150 initialRecord (CallbackState.fresh "m1") frd [0, 1, 2]).store.callback_id =
          some "m1" ∧
        (lambda_handler P0 evAlice150 initialRecord (CallbackState.fresh "m1") frd [0, 1, 2]).outcome =
          Outcome.suspended "manager-approval") ∧
    (100000 ≤ evAlice150.loan_amount →
      ∀ frd, (lambda_handler P0 evAlice150 initialRecord CallbackState.pending frd [0, 1, 2]).effects = []) ∧
    (evAlice150.loan_amount < 100000 →
      ∀ mgr,
        (lambda_handler P0 evAlice150 initialRecord mgr (CallbackState.fresh "f1") [0, 1, 2]).effects =
          [Effect.invokeFraudLambda "f1" evAlice150.application_id evAlice150.applicant_name] ∧
        (lambda_handler P0 evAlice150 initialRecord mgr (CallbackState.fresh "f1") [0, 1, 2]).store.callback_id =
          initialRecord.callback_id ∧
        (lambda_handler P0 evAlice150 initialRecord mgr (CallbackState.fresh "f1") [0, 1, 2]).outcome =
          Outcome.suspended "fraud-check") ∧
    (evAlice150.loan_amount < 100000 →
      ∀ mgr, (lambda_handler P0 evAlice150 initialRecord mgr CallbackState.pending [0, 1, 2]).effects = [])) :=
  ⟨by decide, by decide, by decide,
    c3_side_effect_once_per_suspension P0 evAlice150 initialRecord [0, 1, 2] "m1" "f1"
      (by decide) (by decide) (by decide)⟩

/-!  C7: hardcoded denial scenarios terminate at risk assessment. -/

/-- C7: for ssn_last4 2222 with any positive loan amount, and for ssn_last4
3333 with a loan amount above 25000, the run denies at the RiskAssessment
step in a single invocation: terminal status denied, current_step
risk_assessment, a completed denied result, no side effects and no suspension
token ever issued. -/
theorem c7_denied_scenarios (P : Params) (ev : WfEvent) (order : List Nat)
    (mgr frd : CallbackState) (h2 : 0 < ev.annual_income) :
    (ev.ssn_last4 = "2222" → 0 < ev.loan_amount →
      (∃ r, (lambda_handler P ev initialRecord mgr frd order).outcome =
          Outcome.completed r ∧ r.status = "denied") ∧
      (lambda_handler P ev initialRecord mgr frd order).store.status = "denied" ∧
      (lambda_handler P ev initialRecord mgr frd order).store.current_step =
        "risk_assessment" ∧
      (lambda_handler P ev initialRecord mgr frd order).effects = [] ∧
      (lambda_handler P ev initialRecord mgr frd order).issuedMgr = none ∧
      (lambda_handler P ev initialRecord mgr frd order).issuedFrd = none) ∧
    (ev.ssn_last4 = "3333" → 25000 < ev.loan_amount →
      (∃ r, (lambda_handler P ev initialRecord mgr frd order).outcome =
          Outcome.completed r ∧ r.status = "denied") ∧
      (lambda_handler P ev initialRecord mgr frd order).store.status = "denied" ∧
      (lambda_handler P ev initialRecord mgr frd order).store.current_step =
        "risk_assessment" ∧
      (lambda_handler P ev initialRecord mgr frd order).effects = [] ∧
      (lambda_handler P ev initialRecord mgr frd order).issuedMgr = none ∧
      (lambda_handler P ev initialRecord mgr frd order).issuedFrd = none) := by
  constructor
  · intro hssn hpos
    have hdec : get_scenario_decision ev.ssn_last4 ev.loan_amount = "denied" := by
      simp [get_scenario_decision, hssn]
    simp [lambda_handler, validate_ok P ev hpos h2, hdec]
  · intro hssn hgt
    have hpos : 0 < ev.loan_amount := lt_trans (by norm_num) hgt
    have hdec : get_scenario_decision ev.ssn_last4 ev.loan_amount = "denied" := by
      simp [get_scenario_decision, hssn, not_le.mpr hgt]
    simp [lambda_handler, validate_ok P ev hpos h2, hdec]

/-- C7 witness at concrete inputs (Bob 2222 at 50000, Charlie 3333 at 30000). -/
theorem c7_witness :
    ((0 : ℚ) < 85000 ∧
      (∃ r, (lambda_handler P0 { evAlice with ssn_last4 := "2222" } initialRecord
          CallbackState.pending CallbackState.pending [0, 1, 2]).outcome =
          Outcome.completed r ∧ r.status = "denied") ∧
      (lambda_handler P0 { evAlice with ssn_last4 := "2222" } initialRecord
          CallbackState.pending CallbackState.pending [0, 1, 2]).store.status = "denied" ∧
      (lambda_handler P0 { evAlice with ssn_last4 := "2222" } initialRecord
          CallbackState.pending CallbackState.pending [0, 1, 2]).store.current_step =
        "risk_assessment" ∧
      (lambda_handler P0 { evAlice with ssn_last4 := "2222" } initialRecord
          CallbackState.pending CallbackState.pending [0, 1, 2]).effects = [] ∧
      (lambda_handler P0 { evAlice with ssn_last4 := "2222" } initialRecord
          CallbackState.pending CallbackState.pending [0, 1, 2]).issuedMgr = none ∧
      (lambda_handler P0 { evAlice with ssn_last4 := "2222" } initialRecord
          CallbackState.pending CallbackState.pending [0, 1, 2]).issuedFrd = none) ∧
    ((25000 : ℚ) < 30000 ∧
      (∃ r, (lambda_handler P0 { evAlice with ssn_last4 := "3333", loan_amount := 30000 }
          initialRecord CallbackState.pending CallbackState.pending [0, 1, 2]).outcome =
          Outcome.completed r ∧ r.status = "denied") ∧
      (lambda_handler P0 { evAlice with ssn_last4 := "3333", loan_amount := 30000 }
          initialRecord CallbackState.pending CallbackState.pending [0, 1, 2]).store.status = "denied" ∧
      (lambda_handler P0 { evAlice with ssn_last4 := "3333", loan_amount := 30000 }
          initialRecord CallbackState.pending CallbackState.pending [0, 1, 2]).store.current_step =
        "risk_assessment" ∧
      (lambda_handler P0 { evAlice with ssn_last4 := "3333", loan_amount := 30000 }
          initialRecord CallbackState.pending CallbackState.pending [0, 1, 2]).effects = [] ∧
      (lambda_handler P0 { evAlice with ssn_last4 := "3333", loan_amount := 30000 }
          initialRecord CallbackState.pending CallbackState.pending [0, 1, 2]).issuedMgr = none ∧
      (lambda_handler P0 { evAlice with ssn_last4 := "3333", loan_amount := 30000 }
          initialRecord CallbackState.pending CallbackState.pending [0, 1, 2]).issuedFrd = none) :=
  ⟨⟨by decide, (c7_denied_scenarios P0 { evAlice with ssn_last4 := "2222" } [0, 1, 2]
      CallbackState.pending CallbackState.pending (by decide)).1 rfl (by decide)⟩,
   ⟨by decide, (c7_denied_scenarios P0 { evAlice with ssn_last4 := "3333", loan_amount := 30000 }
      [0, 1, 2] CallbackState.pending CallbackState.pending (by decide)).2 rfl (by decide)⟩⟩

/-!  C6: the manager-approval threshold. -/

/-- C6: an approving application at 50000 never suspends at ManagerApproval:
the only suspension is the fraud check, and once the fraud callback arrives
the run terminates approved with a non-null offer id; an approving
application at 150000 suspends at ManagerApproval. -/
theorem c6_manager_threshold (P : Params) (ev ev2 : WfEvent) (order : List Nat)
    (c1 c2 : String) (p : Payload)
    (h2 : 0 < ev.annual_income) (hl : ev.loan_amount = 50000)
    (hdec : get_scenario_decision ev.ssn_last4 ev.loan_amount = "approved")
    (h2b : 0 < ev2.annual_income) (hlb : ev2.loan_amount = 150000)
    (hdecb : get_scenario_decision ev2.ssn_last4 ev2.loan_amount = "approved") :
    (lambda_handler P ev initialRecord (CallbackState.fresh c1)
        (CallbackState.fresh c2) order).outcome = Outcome.suspended "fraud-check" ∧
    (lambda_handler P ev initialRecord (CallbackState.fresh c1)
        (CallbackState.fresh c2) order).issuedMgr = none ∧
    (lambda_handler P ev
        (lambda_handler P ev initialRecord (CallbackState.fresh c1)
          (CallbackState.fresh c2) order).store
        (CallbackState.fresh c1) (CallbackState.done p) order).outcome.statusOf =
      some "approved" ∧
    ((lambda_handler P ev
        (lambda_handler P ev initialRecord (CallbackState.fresh c1)
          (CallbackState.fresh c2) order).store
        (CallbackState.fresh c1) (CallbackState.done p) order).outcome.offerOf).isSome = true ∧
    (lambda_handler P ev
        (lambda_handler P ev initialRecord (CallbackState.fresh c1)
          (CallbackState.fresh c2) order).store
        (CallbackState.fresh c1) (CallbackState.done p) order).store.status = "approved" ∧
    (lambda_handler P ev
        (lambda_handler P ev initialRecord (CallbackState.fresh c1)
          (CallbackState.fresh c2) order).store
        (CallbackState.fresh c1) (CallbackState.done p) order).issuedMgr = none ∧
    (lambda_handler P ev2 initialRecord (CallbackState.fresh c1)
        (CallbackState.fresh c2) order).outcome = Outcome.suspended "manager-approval" := by
  have h1 : 0 < ev.loan_amount := by rw [hl]; norm_num
  have hnl : ¬ (100000 : ℚ) ≤ ev.loan_amount := by rw [hl]; norm_num
  have h1b : 0 < ev2.loan_amount := by rw [hlb]; norm_num
  have hlgeb : (100000 : ℚ) ≤ ev2.loan_amount := by rw [hlb]; norm_num
  refine ⟨?_, ?_, ?_, ?_, ?_, ?_, ?_⟩ <;>
    simp [lambda_handler, validate_ok P ev h1 h2, validate_ok P ev2 h1b h2b,
      hdec, hdecb, hnl, hlgeb, fraudPhase, submit_fraud_check,
      submit_manager_approval, Outcome.statusOf, Outcome.offerOf]

/-- C6 witness: Alice at 50000 completes approved after the fraud callback
without a manager suspension; Alice at 150000 suspends at manager approval. -/
theorem c6_witness :
    (0 : ℚ) < evAlice.annual_income ∧ evAlice.loan_amount = 50000 ∧
    get_scenario_decision evAlice.ssn_last4 evAlice.loan_amount = "approved" ∧
    (0 : ℚ) < evAlice150.annual_income ∧ evAlice150.loan_amount = 150000 ∧
    get_scenario_decision evAlice150.ssn_last4 evAlice150.loan_amount = "approved" ∧
    ((lambda_handler P0 evAlice initialRecord (CallbackState.fresh "m1")
        (CallbackState.fresh "f1") [0, 1, 2]).outcome = Outcome.suspended "fraud-check" ∧
    (lambda_handler P0 evAlice initialRecord (CallbackState.fresh "m1")
        (CallbackState.fresh "f1") [0, 1, 2]).issuedMgr = none ∧
    (lambda_handler P0 evAlice
        (lambda_handler P0 evAlice initialRecord (CallbackState.fresh "m1")
          (CallbackState.fresh "f1") [0, 1, 2]).store
        (CallbackState.fresh "m1") (CallbackState.done fraud_check_result) [0, 1, 2]).outcome.statusOf =
      some "approved" ∧
    ((lambda_handler P0 evAlice
        (lambda_handler P0 evAlice initialRecord (CallbackState.fresh "m1")
          (CallbackState.fresh "f1") [0, 1, 2]).store
        (CallbackState.fresh "m1") (CallbackState.done fraud_check_result) [0, 1, 2]).outcome.offerOf).isSome = true ∧
    (lambda_handler P0 evAlice
        (lambda_handler P0 evAlice initialRecord (CallbackState.fresh "m1")
          (CallbackState.fresh "f1") [0, 1, 2]).store
        (CallbackState.fresh "m1") (CallbackState.done fraud_check_result) [0, 1, 2]).store.status = "approved" ∧
    (lambda_handler P0 evAlice
        (lambda_handler P0 evAlice initialRecord (CallbackState.fresh "m1")
          (CallbackState.fresh "f1") [0, 1, 2]).store
        (CallbackState.fresh "m1") (CallbackState.done fraud_check_result) [0, 1, 2]).issuedMgr = none ∧
    (lambda_handler P0 evAlice150 initialRecord (CallbackState.fresh "m1")
        (CallbackState.fresh "f1") [0, 1, 2]).outcome = Outcome.suspended "manager-approval") :=
  ⟨by decide, by decide, by decide, by decide, by decide, by decide,
    c6_manager_threshold P0 evAlice evAlice150 [0, 1, 2] "m1" "f1" fraud_check_result
      (by decide) (by decide) (by decide) (by decide) (by decide) (by decide)⟩

/-!  C8: resuming the manager-approval suspension. -/

/-- C8: a workflow suspended at ManagerApproval that is resumed through the
approve endpoint with approved false and a supplied reason terminates denied
with exactly that reason in the result; resumed with approved true it
proceeds to the fraud-check suspension. -/
theorem c8_manager_resume (P : Params) (ev : WfEvent) (order : List Nat)
    (c1 c2 : String) (R : String)
    (h1 : 0 < ev.loan_amount) (h2 : 0 < ev.annual_income)
    (hdec : get_scenario_decision ev.ssn_last4 ev.loan_amount = "approved")
    (hl : (100000 : ℚ) ≤ ev.loan_amount) :
    (lambda_handler P ev initialRecord (CallbackState.fresh c1)
        (CallbackState.fresh c2) order).outcome = Outcome.suspended "manager-approval" ∧
    (lambda_handler P ev initialRecord (CallbackState.fresh c1)
        (CallbackState.fresh c2) order).store.callback_id = some c1 ∧
    approve [c1]
        (some (lambda_handler P ev initialRecord (CallbackState.fresh c1)
          (CallbackState.fresh c2) order).store)
        { approved := some false, reason := some R } =
      (some { (lambda_handler P ev initialRecord (CallbackState.fresh c1)
            (CallbackState.fresh c2) order).store with callback_id := none },
        [Effect.sendApprovalCallback c1
          (approvePayload { approved := some false, reason := some R })],
        ApproveResp.approval_sent false) ∧
    (lambda_handler P ev
        { (lambda_handler P ev initialRecord (CallbackState.fresh c1)
            (CallbackState.fresh c2) order).store with callback_id := none }
        (CallbackState.done (approvePayload { approved := some false, reason := some R }))
        (CallbackState.fresh c2) order).outcome.statusOf = some "denied" ∧
    (lambda_handler P ev
        { (lambda_handler P ev initialRecord (CallbackState.fresh c1)
            (CallbackState.fresh c2) order).store with callback_id := none }
        (CallbackState.done (approvePayload { approved := some false, reason := some R }))
        (CallbackState.fresh c2) order).outcome.reasonOf = some R ∧
    (lambda_handler P ev
        { (lambda_handler P ev initialRecord (CallbackState.fresh c1)
            (CallbackState.fresh c2) order).store with callback_id := none }
        (CallbackState.done (approvePayload { approved := some false, reason := some R }))
        (CallbackState.fresh c2) order).store.status = "denied" ∧
    (lambda_handler P ev
        { (lambda_handler P ev initialRecord (CallbackState.fresh c1)
            (CallbackState.fresh c2) order).store with callback_id := none }
        (CallbackState.done (approvePayload { approved := some true, reason := none }))
        (CallbackState.fresh c2) order).outcome = Outcome.suspended "fraud-check" := by
  refine ⟨?_, ?_, ?_, ?_, ?_, ?_, ?_⟩ <;>
    simp [lambda_handler, validate_ok P ev h1 h2, hdec, hl, approve, approvePayload,
      fraudPhase, submit_fraud_check, submit_manager_approval,
      Outcome.statusOf, Outcome.reasonOf]

/-- C8 witness at the concrete 150000 approving application. -/
theorem c8_witness :
    (0 : ℚ) < evAlice150.loan_amount ∧ (0 : ℚ) < evAlice150.annual_income ∧
    get_scenario_decision evAlice150.ssn_last4 evAlice150.loan_amount = "approved" ∧
    (100000 : ℚ) ≤ evAlice150.loan_amount ∧
    ((lambda_handler P0 evAlice150 initialRecord (CallbackState.fresh "m1")
        (CallbackState.fresh "f1") [0, 1, 2]).outcome = Outcome.suspended "manager-approval" ∧
    (lambda_handler P0 evAlice150 initialRecord (CallbackState.fresh "m1")
        (CallbackState.fresh "f1") [0, 1, 2]).store.callback_id = some "m1" ∧
    approve ["m1"]
        (some (lambda_handler P0 evAlice150 initialRecord (CallbackState.fresh "m1")
          (CallbackState.fresh "f1") [0, 1, 2]).store)
        { approved := some false, reason := some "too risky" } =
      (some { (lambda_handler P0 evAlice150 initialRecord (CallbackState.fresh "m1")
            (CallbackState.fresh "f1") [0, 1, 2]).store with callback_id := none },
        [Effect.sendApprovalCallback "m1"
          (approvePayload { approved := some false, reason := some "too risky" })],
        ApproveResp.approval_sent false) ∧
    (lambda_handler P0 evAlice150
        { (lambda_handler P0 evAlice150 initialRecord (CallbackState.fresh "m1")
            (CallbackState.fresh "f1") [0, 1, 2]).store with callback_id := none }
        (CallbackState.done (approvePayload { approved := some false, reason := some "too risky" }))
        (CallbackState.fresh "f1") [0, 1, 2]).outcome.statusOf = some "denied" ∧
    (lambda_handler P0 evAlice150
        { (lambda_handler P0 evAlice150 initialRecord (CallbackState.fresh "m1")
            (CallbackState.fresh "f1") [0, 1, 2]).store with callback_id := none }
        (CallbackState.done (approvePayload { approved := some false, reason := some "too risky" }))
        (CallbackState.fresh "f1") [0, 1, 2]).outcome.reasonOf = some "too risky" ∧
    (lambda_handler P0 evAlice150
        { (lambda_handler P0 evAlice150 initialRecord (CallbackState.fresh "m1")
            (CallbackState.fresh "f1") [0, 1, 2]).store with callback_id := none }
        (CallbackState.done (approvePayload { approved := some false, reason := some "too risky" }))
        (CallbackState.fresh "f1") [0, 1, 2]).store.status = "denied" ∧
    (lambda_handler P0 evAlice150
        { (lambda_handler P0 evAlice150 initialRecord (CallbackState.fresh "m1")
            (CallbackState.fresh "f1") [0, 1, 2]).store with callback_id := none }
        (CallbackState.done (approvePayload { approved := some true, reason := none }))
        (CallbackState.fresh "f1") [0, 1, 2]).outcome = Outcome.suspended "fraud-check") :=
  ⟨by decide, by decide, by decide, by decide,
    c8_manager_resume P0 evAlice150 [0, 1, 2] "m1" "f1" "too risky"
      (by decide) (by decide) (by decide) (by decide)⟩

/-!  C10: a resume body omitting the approved field denies by default. -/

/-- C10: an approve call whose body omits approved (and reason) sends the
callback payload approved false with the default reason, and the resumed
workflow terminates denied with that reason in its result. -/
theorem c10_default_denial (P : Params) (ev : WfEvent) (order : List Nat)
    (c1 c2 : String)
    (h1 : 0 < ev.loan_amount) (h2 : 0 < ev.annual_income)
    (hdec : get_scenario_decision ev.ssn_last4 ev.loan_amount = "approved")
    (hl : (100000 : ℚ) ≤ ev.loan_amount) :
    approvePayload { } =
      { approved := some false, reason := some "Manager denied the application" } ∧
    approve [c1]
        (some (lambda_handler P ev initialRecord (CallbackState.fresh c1)
          (CallbackState.fresh c2) order).store) { } =
      (some { (lambda_handler P ev initialRecord (CallbackState.fresh c1)
            (CallbackState.fresh c2) order).store with callback_id := none },
        [Effect.sendApprovalCallback c1
          { approved := some false, reason := some "Manager denied the application" }],
        ApproveResp.approval_sent false) ∧
    (lambda_handler P ev
        { (lambda_handler P ev initialRecord (CallbackState.fresh c1)
            (CallbackState.fresh c2) order).store with callback_id := none }
        (CallbackState.done (approvePayload { }))
        (CallbackState.fresh c2) order).outcome.statusOf = some "denied" ∧
    (lambda_handler P ev
        { (lambda_handler P ev initialRecord (CallbackState.fresh c1)
            (CallbackState.fresh c2) order).store with callback_id := none }
        (CallbackState.done (approvePayload { }))
        (CallbackState.fresh c2) order).outcome.reasonOf =
      some "Manager denied the application" ∧
    (lambda_handler P ev
        { (lambda_handler P ev initialRecord (CallbackState.fresh c1)
            (CallbackState.fresh c2) order).store with callback_id := none }
        (CallbackState.done (approvePayload { }))
        (CallbackState.fresh c2) order).store.status = "denied" := by
  refine ⟨rfl, ?_, ?_, ?_, ?_⟩ <;>
    simp [lambda_handler, validate_ok P ev h1 h2, hdec, hl, approve, approvePayload,
      Outcome.statusOf, Outcome.reasonOf]

/-- C10 witness at the concrete 150000 approving application. -/
theorem c10_witness :
    (0 : ℚ) < evAlice150.loan_amount ∧ (0 : ℚ) < evAlice150.annual_income ∧
    get_scenario_decision evAlice150.ssn_last4 evAlice150.loan_amount = "approved" ∧
    (100000 : ℚ) ≤ evAlice150.loan_amount ∧
    (approvePayload { } =
      { approved := some false, reason := some "Manager denied the application" } ∧
    approve ["m1"]
        (some (lambda_handler P0 evAlice150 initialRecord (CallbackState.fresh "m1")
          (CallbackState.fresh "f1") [0, 1, 2]).store) { } =
      (some { (lambda_handler P0 evAlice150 initialRecord (CallbackState.fresh "m1")
            (CallbackState.fresh "f1") [0, 1, 2]).store with callback_id := none },
        [Effect.sendApprovalCallback "m1"
          { approved := some false, reason := some "Manager denied the application" }],
        ApproveResp.approval_sent false) ∧
    (lambda_handler P0 evAlice150
        { (lambda_handler P0 evAlice150 initialRecord (CallbackState.fresh "m1")
            (CallbackState.fresh "f1") [0, 1, 2]).store with callback_id := none }
        (CallbackState.done (approvePayload { }))
        (CallbackState.fresh "f1") [0, 1, 2]).outcome.statusOf = some "denied" ∧
    (lambda_handler P0 evAlice150
        { (lambda_handler P0 evAlice150 initialRecord (CallbackState.fresh "m1")
            (CallbackState.fresh "f1") [0, 1, 2]).store with callback_id := none }
        (CallbackState.done (approvePayload { }))
        (CallbackState.fresh "f1") [0, 1, 2]).outcome.reasonOf =
      some "Manager denied the application" ∧
    (lambda_handler P0 evAlice150
        { (lambda_handler P0 evAlice150 initialRecord (CallbackState.fresh "m1")
            (CallbackState.fresh "f1") [0, 1, 2]).store with callback_id := none }
        (CallbackState.done (approvePayload { }))
        (CallbackState.fresh "f1") [0, 1, 2]).store.status = "denied") :=
  ⟨by decide, by decide, by decide, by decide,
    c10_default_denial P0 evAlice150 [0, 1, 2] "m1" "f1"
      (by decide) (by decide) (by decide) (by decide)⟩

/-!  Shape of one invocation: where tokens can be stored and effects emitted. -/

@[simp]
theorem fraudPhase_callback (P : Params) (v : Validated) (r : RiskResult)
    (frd : CallbackState) (s : St) :
    (fraudPhase P v r frd s).store.callback_id = s.store.callback_id := by
  cases frd <;> simp [fraudPhase, errExit]

@[simp]
theorem fraudPhase_issuedMgr (P : Params) (v : Validated) (r : RiskResult)
    (frd : CallbackState) (s : St) :
    (fraudPhase P v r frd s).issuedMgr = none := by
  cases frd <;> simp [fraudPhase, errExit]

@[simp]
theorem fraudPhase_effects_fresh (P : Params) (v : Validated) (r : RiskResult)
    (c : String) (s : St) :
    (fraudPhase P v r (CallbackState.fresh c) s).effects =
      s.effects ++ [Effect.invokeFraudLambda c v.application_id v.applicant_name] := by
  simp [fraudPhase]

@[simp]
theorem fraudPhase_effects_pending (P : Params) (v : Validated) (r : RiskResult) (s : St) :
    (fraudPhase P v r CallbackState.pending s).effects = s.effects := by
  simp [fraudPhase]

@[simp]
theorem fraudPhase_effects_timedOut (P : Params) (v : Validated) (r : RiskResult)
    (m : String) (s : St) :
    (fraudPhase P v r (CallbackState.timedOut m) s).effects = s.effects := by
  simp [fraudPhase, errExit]

@[simp]
theorem fraudPhase_effects_done (P : Params) (v : Validated) (r : RiskResult)
    (p : Payload) (s : St) :
    (fraudPhase P v r (CallbackState.done p) s).effects = s.effects := by
  simp [fraudPhase]

/-- Every invocation of lambda_handler falls into one of three shapes: it
emits no external effect, leaves the stored token unchanged and mints no
manager token; or the manager rendezvous is first reached (mgr input fresh)
and the single effect is the token write of the previously stored value; or
the fraud rendezvous is first reached and the single effect is the fraud
Lambda invocation, with the stored token unchanged. -/
theorem lambda_handler_shape (P : Params) (ev : WfEvent) (rec0 : AppRecord)
    (mgr frd : CallbackState) (order : List Nat) :
    ((lambda_handler P ev rec0 mgr frd order).effects = [] ∧
      (lambda_handler P ev rec0 mgr frd order).store.callback_id = rec0.callback_id ∧
      (lambda_handler P ev rec0 mgr frd order).issuedMgr = none) ∨
    (∃ c, mgr = CallbackState.fresh c ∧
      (lambda_handler P ev rec0 mgr frd order).effects =
        [Effect.setCallbackId c rec0.callback_id] ∧
      (lambda_handler P ev rec0 mgr frd order).store.callback_id = some c ∧
      (lambda_handler P ev rec0 mgr frd order).issuedMgr = some c) ∨
    (∃ c, frd = CallbackState.fresh c ∧
      (lambda_handler P ev rec0 mgr frd order).effects =
        [Effect.invokeFraudLambda c ev.application_id ev.applicant_name] ∧
      (lambda_handler P ev rec0 mgr frd order).store.callback_id = rec0.callback_id ∧
      (lambda_handler P ev rec0 mgr frd order).issuedMgr = none) := by
  unfold lambda_handler
  rcases hv : validate_application P ev with msg | v
  · left
    simp [errExit]
  · have hva : v = mkValidated P ev := by
      unfold validate_application at hv
      split at hv
      · cases hv
      · split at hv
        · cases hv
        · cases hv
          rfl
    subst hva
    dsimp only
    by_cases hd : (calculate_risk_score P
        (hostParallel (creditTasks P (mkValidated P ev).ssn_last4) order)
        (mkValidated P ev).ssn_last4 (mkValidated P ev).loan_amount).decision = "denied"
    · rw [if_pos hd]
      left
      simp
    · rw [if_neg hd]
      by_cases hthr : (100000 : ℚ) ≤ (mkValidated P ev).loan_amount
      · rw [if_pos hthr]
        cases mgr with
        | fresh c =>
          right; left
          exact ⟨c, rfl, by simp, by simp, by simp⟩
        | pending => left; simp
        | timedOut m => left; simp [errExit]
        | done p =>
          dsimp only
          by_cases hap : !(p.approved.getD false)
          · rw [if_pos hap]
            left; simp
          · rw [if_neg hap]
            cases frd with
            | fresh c => right; right; exact ⟨c, rfl, by simp, by simp, by simp⟩
            | pending => left; simp
            | timedOut m => left; simp
            | done q => left; simp
      · rw [if_neg hthr]
        cases frd with
        | fresh c => right; right; exact ⟨c, rfl, by simp, by simp, by simp⟩
        | pending => left; simp
        | timedOut m => left; simp
        | done q => left; simp

/-- The host hands the workflow a fresh callback input only at a rendezvous
that was never issued, and the minted id is the one passed in. -/
theorem toInput_fresh_inv (h : HostCb) (mint c : String)
    (he : toInput h mint = CallbackState.fresh c) : h = HostCb.notIssued ∧ c = mint := by
  cases h with
  | notIssued => simp [toInput] at he; exact ⟨rfl, he.symm⟩
  | waiting c2 => simp [toInput] at he
  | completed p => simp [toInput] at he
  | expired c2 m => simp [toInput] at he

/-- Inductive invariant of every reachable application state: while the
manager rendezvous was never issued the record stores no token, and whenever
the record stores a token it is the manager rendezvous token (outstanding or
expired). -/
theorem reach_inv (P : Params) (ev : WfEvent) (s : Sys) (h : Reach P ev s) :
    (s.mgr = HostCb.notIssued → s.store.callback_id = none) ∧
    (∀ c, s.store.callback_id = some c →
      s.mgr = HostCb.waiting c ∨ ∃ m, s.mgr = HostCb.expired c m) := by
  induction h with
  | init => exact ⟨fun _ => rfl, fun c hc => by simp [initialRecord] at hc⟩
  | invoke s c1 c2 order hr ih =>
    rcases lambda_handler_shape P ev s.store (toInput s.mgr c1) (toInput s.frd c2) order with
      ⟨he, hcb, him⟩ | ⟨c, hf, he, hcb, him⟩ | ⟨c, hf, he, hcb, him⟩
    · simp only [sysInvoke, him, hcb]
      exact ih
    · obtain ⟨hni, hcc⟩ := toInput_fresh_inv s.mgr c1 c hf
      simp only [sysInvoke, him, hcb]
      refine ⟨fun hw => by simp at hw, fun c' hc' => ?_⟩
      left
      simp only [Option.some_inj] at hc'
      rw [hc']
    · simp only [sysInvoke, him, hcb]
      exact ih
  | approveCall s body hr ih =>
    rcases hcb : s.store.callback_id with _ | cid
    · simp only [sysApprove, approve, hcb]
      exact ih
    · by_cases hmem : cid ∈ sysTokens s
      · by_cases hmgr : s.mgr = HostCb.waiting cid
        · simp only [sysApprove, approve, hcb, if_pos hmem, if_pos hmgr]
          refine ⟨fun _ => rfl, fun c hc => by simp at hc⟩
        · simp only [sysApprove, approve, hcb, if_pos hmem, if_neg hmgr]
          refine ⟨fun _ => rfl, fun c hc => by simp at hc⟩
      · simp only [sysApprove, approve, hcb, if_neg hmem]
        exact ih
  | fraudCb s cid hr ih =>
    by_cases hw : s.frd = HostCb.waiting cid
    · simp only [sysFraudCb, if_pos hw]
      exact ih
    · simp only [sysFraudCb, if_neg hw]
      exact ih
  | timeoutMgr s msg hr ih =>
    unfold sysTimeoutMgr
    rcases hm : s.mgr with _ | c | p | ⟨cm, mm⟩
    · exact ih
    · refine ⟨(fun hw => nomatch hw), (fun c' hc' => ?_)⟩
      rcases ih.2 c' hc' with h2 | ⟨m2, h2⟩ <;> rw [hm] at h2
      · cases h2
        right
        exact ⟨msg, rfl⟩
      · cases h2
    · exact ih
    · exact ih
  | timeoutFrd s msg hr ih =>
    unfold sysTimeoutFrd
    rcases hf : s.frd with _ | c | p | ⟨cm, mm⟩ <;> exact ih

/-- C4: in every reachable state the record holds at most one outstanding
token, always the manager rendezvous token; and whatever the host does next,
an invocation writes a callback token only when none is stored (the recorded
previous value of every setCallbackId effect is none), the token written is
the freshly minted manager token, and at most one such write happens per
invocation. -/
theorem c4_single_outstanding_token (P : Params) (ev : WfEvent) (s : Sys)
    (h : Reach P ev s) (c1 c2 : String) (order : List Nat) :
    (s.store.callback_id = none ∨
      ∃ c, s.store.callback_id = some c ∧
        (s.mgr = HostCb.waiting c ∨ ∃ m, s.mgr = HostCb.expired c m)) ∧
    (∀ e ∈ (sysInvoke P ev s c1 c2 order).2.effects,
      ∀ cid prev, e = Effect.setCallbackId cid prev → prev = none ∧ cid = c1) ∧
    (sysInvoke P ev s c1 c2 order).2.effects.countP isSetCb ≤ 1 := by
  have hinv := reach_inv P ev s h
  have hout : (sysInvoke P ev s c1 c2 order).2 =
      lambda_handler P ev s.store (toInput s.mgr c1) (toInput s.frd c2) order := rfl
  refine ⟨?_, ?_, ?_⟩
  · rcases hcb : s.store.callback_id with _ | c
    · exact Or.inl rfl
    · exact Or.inr ⟨c, rfl, hinv.2 c hcb⟩
  · intro e he cid prev hee
    rw [hout] at he
    rcases lambda_handler_shape P ev s.store (toInput s.mgr c1) (toInput s.frd c2) order with
      ⟨hef, hcb2, him⟩ | ⟨c, hf, hef, hcb2, him⟩ | ⟨c, hf, hef, hcb2, him⟩
    · rw [hef] at he
      cases he
    · rw [hef] at he
      obtain rfl := List.mem_singleton.mp he
      obtain ⟨hni, hcc⟩ := toInput_fresh_inv s.mgr c1 c hf
      rw [hinv.1 hni] at hee
      cases hee
      exact ⟨rfl, hcc⟩
    · rw [hef] at he
      obtain rfl := List.mem_singleton.mp he
      cases hee
  · rw [hout]
    rcases lambda_handler_shape P ev s.store (toInput s.mgr c1) (toInput s.frd c2) order with
      ⟨hef, hcb2, him⟩ | ⟨c, hf, hef, hcb2, him⟩ | ⟨c, hf, hef, hcb2, him⟩ <;>
      rw [hef] <;> simp [isSetCb]

/-- C4 witness: the invariant and the set-only-from-none property applied at
the initial reachable state of the concrete above-threshold application. -/
theorem c4_witness :
    (((⟨initialRecord, HostCb.notIssued, HostCb.notIssued⟩ : Sys)).store.callback_id = none ∨
      ∃ c, ((⟨initialRecord, HostCb.notIssued, HostCb.notIssued⟩ : Sys)).store.callback_id = some c ∧
        (((⟨initialRecord, HostCb.notIssued, HostCb.notIssued⟩ : Sys)).mgr = HostCb.waiting c ∨
          ∃ m, ((⟨initialRecord, HostCb.notIssued, HostCb.notIssued⟩ : Sys)).mgr = HostCb.expired c m)) ∧
    (∀ e ∈ (sysInvoke P0 evAlice150 ⟨initialRecord, HostCb.notIssued, HostCb.notIssued⟩
        "m1" "f1" [0, 1, 2]).2.effects,
      ∀ cid prev, e = Effect.setCallbackId cid prev → prev = none ∧ cid = "m1") ∧
    (sysInvoke P0 evAlice150 ⟨initialRecord, HostCb.notIssued, HostCb.notIssued⟩
        "m1" "f1" [0, 1, 2]).2.effects.countP isSetCb ≤ 1 :=
  c4_single_outstanding_token P0 evAlice150 ⟨initialRecord, HostCb.notIssued, HostCb.notIssued⟩
    Reach.init "m1" "f1" [0, 1, 2]

/-!  C5: rendezvous timeout behavior. -/

/-- C5: for every suspension that receives no resume before its configured
timeout, the rendezvous token is invalidated server-side, the re-invoked
workflow fails with the timeout error, and the failure is persisted in the
log at error level with status failed. For the fraud-check suspension of a
below-threshold run, a late fraud callback presenting the expired token and
a late approve call are afterwards rejected without resuming the workflow or
mutating the record; for the manager-approval suspension of an
above-threshold run, the expired token is still stored in the record, and a
late approve call presenting it fails at the host send, performing no
mutation, emitting no callback and resuming nothing. -/
theorem c5_timeout_invalidates_token (P : Params) (ev ev2 : WfEvent) (order : List Nat)
    (c1 c2 c1b c2b : String) (msg : String) (body : ApproveBody)
    (h1 : 0 < ev.loan_amount) (h2 : 0 < ev.annual_income)
    (hdec : get_scenario_decision ev.ssn_last4 ev.loan_amount = "approved")
    (hlt : ev.loan_amount < 100000)
    (h1b : 0 < ev2.loan_amount) (h2b : 0 < ev2.annual_income)
    (hdecb : get_scenario_decision ev2.ssn_last4 ev2.loan_amount = "approved")
    (hlgeb : (100000 : ℚ) ≤ ev2.loan_amount) :
    (sysInvoke P ev ⟨initialRecord, HostCb.notIssued, HostCb.notIssued⟩
        c1 c2 order).2.outcome = Outcome.suspended "fraud-check" ∧
    (sysTimeoutFrd (sysInvoke P ev ⟨initialRecord, HostCb.notIssued, HostCb.notIssued⟩
        c1 c2 order).1 msg).frd = HostCb.expired c2 msg ∧
    (sysInvoke P ev (sysTimeoutFrd (sysInvoke P ev
        ⟨initialRecord, HostCb.notIssued, HostCb.notIssued⟩ c1 c2 order).1 msg)
        c1b c2b order).2.outcome = Outcome.failed msg ∧
    (sysInvoke P ev (sysTimeoutFrd (sysInvoke P ev
        ⟨initialRecord, HostCb.notIssued, HostCb.notIssued⟩ c1 c2 order).1 msg)
        c1b c2b order).2.store.status = "failed" ∧
    (⟨"error", "Workflow error: " ++ msg, "error"⟩ : LogEntry) ∈
      (sysInvoke P ev (sysTimeoutFrd (sysInvoke P ev
        ⟨initialRecord, HostCb.notIssued, HostCb.notIssued⟩ c1 c2 order).1 msg)
        c1b c2b order).2.store.logs ∧
    sysFraudCb ((sysInvoke P ev (sysTimeoutFrd (sysInvoke P ev
        ⟨initialRecord, HostCb.notIssued, HostCb.notIssued⟩ c1 c2 order).1 msg)
        c1b c2b order).1) c2 =
      ((sysInvoke P ev (sysTimeoutFrd (sysInvoke P ev
        ⟨initialRecord, HostCb.notIssued, HostCb.notIssued⟩ c1 c2 order).1 msg)
        c1b c2b order).1, []) ∧
    sysApprove ((sysInvoke P ev (sysTimeoutFrd (sysInvoke P ev
        ⟨initialRecord, HostCb.notIssued, HostCb.notIssued⟩ c1 c2 order).1 msg)
        c1b c2b order).1) body =
      ((sysInvoke P ev (sysTimeoutFrd (sysInvoke P ev
        ⟨initialRecord, HostCb.notIssued, HostCb.notIssued⟩ c1 c2 order).1 msg)
        c1b c2b order).1, [],
        ApproveResp.badRequest "No pending approval for this application") ∧
    (sysInvoke P ev2 ⟨initialRecord, HostCb.notIssued, HostCb.notIssued⟩
        c1 c2 order).2.outcome = Outcome.suspended "manager-approval" ∧
    (sysTimeoutMgr (sysInvoke P ev2 ⟨initialRecord, HostCb.notIssued, HostCb.notIssued⟩
        c1 c2 order).1 msg).mgr = HostCb.expired c1 msg ∧
    (sysInvoke P ev2 (sysTimeoutMgr (sysInvoke P ev2
        ⟨initialRecord, HostCb.notIssued, HostCb.notIssued⟩ c1 c2 order).1 msg)
        c1b c2b order).1.store.callback_id = some c1 ∧
    (sysInvoke P ev2 (sysTimeoutMgr (sysInvoke P ev2
        ⟨initialRecord, HostCb.notIssued, HostCb.notIssued⟩ c1 c2 order).1 msg)
        c1b c2b order).2.outcome = Outcome.failed msg ∧
    (sysInvoke P ev2 (sysTimeoutMgr (sysInvoke P ev2
        ⟨initialRecord, HostCb.notIssued, HostCb.notIssued⟩ c1 c2 order).1 msg)
        c1b c2b order).2.store.status = "failed" ∧
    (⟨"error", "Workflow error: " ++ msg, "error"⟩ : LogEntry) ∈
      (sysInvoke P ev2 (sysTimeoutMgr (sysInvoke P ev2
        ⟨initialRecord, HostCb.notIssued, HostCb.notIssued⟩ c1 c2 order).1 msg)
        c1b c2b order).2.store.logs ∧
    sysApprove ((sysInvoke P ev2 (sysTimeoutMgr (sysInvoke P ev2
        ⟨initialRecord, HostCb.notIssued, HostCb.notIssued⟩ c1 c2 order).1 msg)
        c1b c2b order).1) body =
      ((sysInvoke P ev2 (sysTimeoutMgr (sysInvoke P ev2
        ⟨initialRecord, HostCb.notIssued, HostCb.notIssued⟩ c1 c2 order).1 msg)
        c1b c2b order).1, [], ApproveResp.sendFailed) := by
  refine ⟨?_, ?_, ?_, ?_, ?_, ?_, ?_, ?_, ?_, ?_, ?_, ?_, ?_, ?_⟩ <;>
    simp [sysInvoke, sysTimeoutFrd, sysTimeoutMgr, sysFraudCb, sysApprove, approve,
      sysTokens, toInput, lambda_handler, validate_ok P ev h1 h2,
      validate_ok P ev2 h1b h2b, hdec, hdecb, not_le.mpr hlt, hlgeb, fraudPhase,
      errExit, submit_fraud_check, submit_manager_approval, initialRecord, stLog,
      logCall, log_progress, stepCount, mkOut]

/-- C5 witness: the fraud-check timeout at the concrete below-threshold
application and the manager-approval timeout at the concrete above-threshold
application. -/
theorem c5_witness :
    (0 : ℚ) < evAlice.loan_amount ∧ (0 : ℚ) < evAlice.annual_income ∧
    get_scenario_decision evAlice.ssn_last4 evAlice.loan_amount = "approved" ∧
    evAlice.loan_amount < 100000 ∧
    (0 : ℚ) < evAlice150.loan_amount ∧ (0 : ℚ) < evAlice150.annual_income ∧
    get_scenario_decision evAlice150.ssn_last4 evAlice150.loan_amount = "approved" ∧
    (100000 : ℚ) ≤ evAlice150.loan_amount ∧
    ((sysInvoke P0 evAlice ⟨initialRecord, HostCb.notIssued, HostCb.notIssued⟩
        "m1" "f1" [0, 1, 2]).2.outcome = Outcome.suspended "fraud-check" ∧
    (sysTimeoutFrd (sysInvoke P0 evAlice ⟨initialRecord, HostCb.notIssued, HostCb.notIssued⟩
        "m1" "f1" [0, 1, 2]).1 "Callback timed out").frd = HostCb.expired "f1" "Callback timed out" ∧
    (sysInvoke P0 evAlice (sysTimeoutFrd (sysInvoke P0 evAlice
        ⟨initialRecord, HostCb.notIssued, HostCb.notIssued⟩ "m1" "f1" [0, 1, 2]).1 "Callback timed out")
        "m2" "f2" [0, 1, 2]).2.outcome = Outcome.failed "Callback timed out" ∧
    (sysInvoke P0 evAlice (sysTimeoutFrd (sysInvoke P0 evAlice
        ⟨initialRecord, HostCb.notIssued, HostCb.notIssued⟩ "m1" "f1" [0, 1, 2]).1 "Callback timed out")
        "m2" "f2" [0, 1, 2]).2.store.status = "failed" ∧
    (⟨"error", "Workflow error: " ++ "Callback timed out", "error"⟩ : LogEntry) ∈
      (sysInvoke P0 evAlice (sysTimeoutFrd (sysInvoke P0 evAlice
        ⟨initialRecord, HostCb.notIssued, HostCb.notIssued⟩ "m1" "f1" [0, 1, 2]).1 "Callback timed out")
        "m2" "f2" [0, 1, 2]).2.store.logs ∧
    sysFraudCb ((sysInvoke P0 evAlice (sysTimeoutFrd (sysInvoke P0 evAlice
        ⟨initialRecord, HostCb.notIssued, HostCb.notIssued⟩ "m1" "f1" [0, 1, 2]).1 "Callback timed out")
        "m2" "f2" [0, 1, 2]).1) "f1" =
      ((sysInvoke P0 evAlice (sysTimeoutFrd (sysInvoke P0 evAlice
        ⟨initialRecord, HostCb.notIssued, HostCb.notIssued⟩ "m1" "f1" [0, 1, 2]).1 "Callback timed out")
        "m2" "f2" [0, 1, 2]).1, []) ∧
    sysApprove ((sysInvoke P0 evAlice (sysTimeoutFrd (sysInvoke P0 evAlice
        ⟨initialRecord, HostCb.notIssued, HostCb.notIssued⟩ "m1" "f1" [0, 1, 2]).1 "Callback timed out")
        "m2" "f2" [0, 1, 2]).1) { approved := some true } =
      ((sysInvoke P0 evAlice (sysTimeoutFrd (sysInvoke P0 evAlice
        ⟨initialRecord, HostCb.notIssued, HostCb.notIssued⟩ "m1" "f1" [0, 1, 2]).1 "Callback timed out")
        "m2" "f2" [0, 1, 2]).1, [],
        ApproveResp.badRequest "No pending approval for this application") ∧
    (sysInvoke P0 evAlice150 ⟨initialRecord, HostCb.notIssued, HostCb.notIssued⟩
        "m1" "f1" [0, 1, 2]).2.outcome = Outcome.suspended "manager-approval" ∧
    (sysTimeoutMgr (sysInvoke P0 evAlice150 ⟨initialRecord, HostCb.notIssued, HostCb.notIssued⟩
        "m1" "f1" [0, 1, 2]).1 "Callback timed out").mgr = HostCb.expired "m1" "Callback timed out" ∧
    (sysInvoke P0 evAlice150 (sysTimeoutMgr (sysInvoke P0 evAlice150
        ⟨initialRecord, HostCb.notIssued, HostCb.notIssued⟩ "m1" "f1" [0, 1, 2]).1 "Callback timed out")
        "m2" "f2" [0, 1, 2]).1.store.callback_id = some "m1" ∧
    (sysInvoke P0 evAlice150 (sysTimeoutMgr (sysInvoke P0 evAlice150
        ⟨initialRecord, HostCb.notIssued, HostCb.notIssued⟩ "m1" "f1" [0, 1, 2]).1 "Callback timed out")
        "m2" "f2" [0, 1, 2]).2.outcome = Outcome.failed "Callback timed out" ∧
    (sysInvoke P0 evAlice150 (sysTimeoutMgr (sysInvoke P0 evAlice150
        ⟨initialRecord, HostCb.notIssued, HostCb.notIssued⟩ "m1" "f1" [0, 1, 2]).1 "Callback timed out")
        "m2" "f2" [0, 1, 2]).2.store.status = "failed" ∧
    (⟨"error", "Workflow error: " ++ "Callback timed out", "error"⟩ : LogEntry) ∈
      (sysInvoke P0 evAlice150 (sysTimeoutMgr (sysInvoke P0 evAlice150
        ⟨initialRecord, HostCb.notIssued, HostCb.notIssued⟩ "m1" "f1" [0, 1, 2]).1 "Callback timed out")
        "m2" "f2" [0, 1, 2]).2.store.logs ∧
    sysApprove ((sysInvoke P0 evAlice150 (sysTimeoutMgr (sysInvoke P0 evAlice150
        ⟨initialRecord, HostCb.notIssued, HostCb.notIssued⟩ "m1" "f1" [0, 1, 2]).1 "Callback timed out")
        "m2" "f2" [0, 1, 2]).1) { approved := some true } =
      ((sysInvoke P0 evAlice150 (sysTimeoutMgr (sysInvoke P0 evAlice150
        ⟨initialRecord, HostCb.notIssued, HostCb.notIssued⟩ "m1" "f1" [0, 1, 2]).1 "Callback timed out")
        "m2" "f2" [0, 1, 2]).1, [], ApproveResp.sendFailed)) :=
  ⟨by decide, by decide, by decide, by decide, by decide, by decide, by decide, by decide,
    c5_timeout_invalidates_token P0 evAlice evAlice150 [0, 1, 2] "m1" "f1" "m2" "f2"
      "Callback timed out" { approved := some true }
      (by decide) (by decide) (by decide) (by decide)
      (by decide) (by decide) (by decide) (by decide)⟩

end LoanDemo
